import Mathlib

/-!
Shallow embedding of the SEH stack-unwinder core of the framehop fork:

* src/x86_64/seh.rs — RUNTIME_FUNCTION lookup and the rule synthesizer
  seh_to_unwind_rule;
* src/x86_64/unwind_rule.rs — the rule algebra UnwindRuleX86_64 and the
  executor exec;
* src/seh.rs — the outer SehUnwinder wrapper and SehUnwinderError.

Machine integers are modelled as Nat (unsigned) and Int (signed), with
explicit two's-complement wrapping where the Rust code can wrap and an
explicit crash outcome where the Rust code can panic (unchecked index,
unchecked subtraction, Option::unwrap).
-/

/-- Interpretation of a Nat holding a u32 bit pattern as Rust `as i32`
(two's complement). -/
def toSigned32 (n : Nat) : Int :=
  if n % 4294967296 < 2147483648 then ((n % 4294967296 : Nat) : Int)
  else ((n % 4294967296 : Nat) : Int) - 4294967296

/-- Reduction of an unbounded Int into the i32 range by two's-complement
wrap-around (release-mode Rust semantics for i32 arithmetic). -/
def wrap32 (x : Int) : Int := (x + 2147483648) % 4294967296 - 2147483648

/-- Rust `as u16` applied to an i32 value: the low 16 bits read as unsigned. -/
def toU16 (x : Int) : Nat := (x % 65536).toNat

/-- Rust `as i16` applied to an i32 value: the low 16 bits read as two's
complement. -/
def toI16 (x : Int) : Int :=
  if x % 65536 < 32768 then x % 65536 else x % 65536 - 65536

/-- u64::checked_add, as used via the closure at src/x86_64/unwind_rule.rs
line 46. -/
def checked_add (lhs rhs : Nat) : Option Nat :=
  if lhs + rhs < 18446744073709551616 then some (lhs + rhs) else none

/-- Modelled from the spec: checked_add_signed comes from src/add_signed.rs,
which is not among the provided sources; per the spec all executor arithmetic
is overflow-checked, so this is u64 + i64 returning none exactly when the
mathematical sum leaves the u64 range. -/
def checked_add_signed (lhs : Nat) (rhs : Int) : Option Nat :=
  if 0 ≤ (lhs : Int) + rhs ∧ (lhs : Int) + rhs < 18446744073709551616 then
    some (((lhs : Int) + rhs).toNat)
  else none

/-- Register constant RBP = Register(5) (src/x86_64/seh.rs line 13); registers
are u8 numbers. -/
def RBP : Nat := 5

/-- Constant REG_SIZE: i32 = 8 (src/x86_64/seh.rs line 12). -/
def REG_SIZE : Int := 8

/-- StackFrameOffset from goblin, per spec section 3: RSP(u32), FP(u32), or
Unused. -/
inductive StackFrameOffset
  | RSP (offset : Nat)
  | FP (offset : Nat)
  | Unused
  deriving DecidableEq

/-- UnwindOperation from goblin as consumed by seh_to_unwind_rule
(src/x86_64/seh.rs lines 54-84). -/
inductive UnwindOperation
  | PushNonVolatile (reg : Nat)
  | Alloc (size : Nat)
  | SetFPRegister
  | SaveNonVolatile (reg : Nat) (offset : StackFrameOffset)
  | SaveXMM (reg : Nat) (offset : Nat)
  | SaveXMM128 (reg : Nat) (offset : Nat)
  | PushMachineFrame (errcode : Bool)
  | Epilog
  | Noop
  deriving DecidableEq

/-- UnwindInfoChunk (src/x86_64/seh.rs lines 26-32), with the fallible code
iterator replaced by the list of operations it yields (the unit tests in
seh.rs drive seh_to_unwind_rule from plain arrays in exactly this way). -/
structure UnwindInfoChunk where
  codes : List UnwindOperation
  frame_register : Nat
  frame_register_offset : Nat
  deriving DecidableEq

/-- Accumulator of seh_to_unwind_rule (src/x86_64/seh.rs lines 40-44):
use_bp, sp_offset (an i32), bp_offset (an optional i32). -/
structure SynthState where
  use_bp : Bool
  sp_offset : Int
  bp_offset : Option Int
  deriving DecidableEq

/-- One iteration of the operation loop of seh_to_unwind_rule
(src/x86_64/seh.rs lines 53-85); fro is the enclosing chunk's
frame_register_offset. The i32 accumulator arithmetic wraps. -/
def synthStep (fro : Nat) (s : SynthState) (op : UnwindOperation) : SynthState :=
  match op with
  | .PushNonVolatile reg =>
      let s' := if reg = RBP then { s with bp_offset := some s.sp_offset } else s
      { s' with sp_offset := wrap32 (s'.sp_offset + REG_SIZE) }
  | .Alloc size => { s with sp_offset := wrap32 (s.sp_offset + toSigned32 size) }
  | .SetFPRegister => { s with sp_offset := wrap32 (-(toSigned32 fro)), use_bp := true }
  | .SaveNonVolatile reg offset =>
      if reg = RBP then
        match offset with
        | .RSP o => { s with bp_offset := some (toSigned32 o) }
        | _ => s
      else s
  | .SaveXMM _ _ => s
  | .SaveXMM128 _ _ => s
  | .PushMachineFrame _ => s
  | .Epilog => s
  | .Noop => s

/-- Processing of one chunk's operation stream (src/x86_64/seh.rs lines
48-86; the empty frame-register TODO at lines 49-51 has no effect and is
omitted). -/
def synthChunk (s : SynthState) (c : UnwindInfoChunk) : SynthState :=
  c.codes.foldl (synthStep c.frame_register_offset) s

/-- Enum UnwindRuleX86_64 as declared in src/x86_64/unwind_rule.rs lines 7-22:
the closed five-case rule algebra that exec gives execution semantics to.
Source field types: sp_offset_by_8 is u16, bp_storage_offset_from_sp_by_8 is
i16. -/
inductive UnwindRuleX86_64
  | JustReturn
  | JustReturnIfFirstFrameOtherwiseFp
  | OffsetSp (sp_offset_by_8 : Nat)
  | OffsetSpAndRestoreBp (sp_offset_by_8 : Nat) (bp_storage_offset_from_sp_by_8 : Int)
  | UseFramePointer
  deriving DecidableEq

/-- Rule values as constructed by src/x86_64/seh.rs: the five cases of
UnwindRuleX86_64 plus UseBasePointer (constructed at seh.rs lines 92-95),
which is not declared in the enum in unwind_rule.rs as provided and for which
exec has no match arm. -/
inductive UnwindRuleX86_64Seh
  | JustReturn
  | JustReturnIfFirstFrameOtherwiseFp
  | OffsetSp (sp_offset_by_8 : Nat)
  | OffsetSpAndRestoreBp (sp_offset_by_8 : Nat) (bp_storage_offset_from_sp_by_8 : Int)
  | UseFramePointer
  | UseBasePointer (sp_offset_from_bp_by_8 : Nat) (bp_storage_offset_from_bp_by_8 : Int)
  deriving DecidableEq

/-- Embedding of the executor's five-case algebra into the synthesizer-side
rule type. -/
def UnwindRuleX86_64.toSeh : UnwindRuleX86_64 → UnwindRuleX86_64Seh
  | .JustReturn => .JustReturn
  | .JustReturnIfFirstFrameOtherwiseFp => .JustReturnIfFirstFrameOtherwiseFp
  | .OffsetSp k => .OffsetSp k
  | .OffsetSpAndRestoreBp k j => .OffsetSpAndRestoreBp k j
  | .UseFramePointer => .UseFramePointer

/-- Test for membership in the closed five-case algebra of
src/x86_64/unwind_rule.rs (the image of UnwindRuleX86_64.toSeh). -/
def UnwindRuleX86_64Seh.isExecCase : UnwindRuleX86_64Seh → Bool
  | .UseBasePointer _ _ => false
  | _ => true

/-- seh_to_unwind_rule (src/x86_64/seh.rs lines 34-107) over an explicit list
of chunks. Returns none where the source panics: bp_offset.unwrap() at line 94
with use_bp set but no bp_offset recorded. The final divisions are Rust i32
division (truncation toward zero, Int.tdiv) and the narrowings `as u16` /
`as i16` keep the low 16 bits exactly as the source does (the overflow TODO
comments at lines 93-103). -/
def seh_to_unwind_rule (chunks : List UnwindInfoChunk) : Option UnwindRuleX86_64Seh :=
  let s := chunks.foldl synthChunk ⟨false, 0, none⟩
  let sp_offset := wrap32 (s.sp_offset + REG_SIZE)
  if s.use_bp then
    match s.bp_offset with
    | some bo => some (.UseBasePointer (toU16 (Int.tdiv sp_offset 8)) (toI16 (Int.tdiv bo 8)))
    | none => none
  else
    match s.bp_offset with
    | some bo => some (.OffsetSpAndRestoreBp (toU16 (Int.tdiv sp_offset 8)) (toI16 (Int.tdiv bo 8)))
    | none => some (.OffsetSp (toU16 (Int.tdiv sp_offset 8)))

/-- Error enum from src/error.rs lines 7-22 (the executor-relevant error type). -/
inductive Error
  | CouldNotReadStack (addr : Nat)
  | FramepointerUnwindingMovedBackwards
  | DidNotAdvance
  | IntegerOverflow
  | ReturnAddressIsNull
  deriving DecidableEq

/-- Modelled from the spec: UnwindRegsX86_64, the register file (ip, sp, bp),
all u64 (spec section 3; src/x86_64/unwindregs.rs is not among the provided
sources, but exec uses only the three getters and setters). -/
structure UnwindRegsX86_64 where
  ip : Nat
  sp : Nat
  bp : Nat
  deriving DecidableEq

/-- Outcome of one exec call: Ok(Option of return address), Err(Error), or a
crash of the Rust process. The only crash site in exec is the unchecked
subtraction new_sp - 8 at src/x86_64/unwind_rule.rs line 161, which underflows
when new_sp < 8 (an arithmetic-overflow panic in debug builds). -/
inductive ExecStatus
  | ok (ret : Option Nat)
  | err (e : Error)
  | crashed
  deriving DecidableEq

/-- Common tail of exec, src/x86_64/unwind_rule.rs lines 160-172: read the
return address at new_sp - 8 (unchecked subtraction: crash when new_sp < 8),
stop on a null return address, detect lack of progress, otherwise commit all
three registers at once. -/
def execTail (regs : UnwindRegsX86_64) (new_sp new_bp : Nat)
    (read_stack : Nat → Option Nat) : ExecStatus × UnwindRegsX86_64 :=
  if new_sp < 8 then (.crashed, regs)
  else
    match read_stack (new_sp - 8) with
    | none => (.err (.CouldNotReadStack (new_sp - 8)), regs)
    | some return_address =>
      if return_address = 0 then (.ok none, regs)
      else if new_sp = regs.sp ∧ return_address = regs.ip then (.err .DidNotAdvance, regs)
      else (.ok (some return_address), ⟨return_address, new_sp, new_bp⟩)

/-- exec from src/x86_64/unwind_rule.rs lines 37-172, with the register file
passed and returned explicitly and read_stack as a pure partial map. -/
def exec (rule : UnwindRuleX86_64) (is_first_frame : Bool) (regs : UnwindRegsX86_64)
    (read_stack : Nat → Option Nat) : ExecStatus × UnwindRegsX86_64 :=
  match rule with
  | .JustReturn =>
      match checked_add regs.sp 8 with
      | none => (.err .IntegerOverflow, regs)
      | some new_sp => execTail regs new_sp regs.bp read_stack
  | .JustReturnIfFirstFrameOtherwiseFp =>
      if is_first_frame then
        match checked_add regs.sp 8 with
        | none => (.err .IntegerOverflow, regs)
        | some new_sp => execTail regs new_sp regs.bp read_stack
      else
        match checked_add regs.bp 16 with
        | none => (.err .IntegerOverflow, regs)
        | some new_sp =>
          if new_sp ≤ regs.sp then (.err .FramepointerUnwindingMovedBackwards, regs)
          else
            match read_stack regs.bp with
            | none => (.err (.CouldNotReadStack regs.bp), regs)
            | some new_bp => execTail regs new_sp new_bp read_stack
  | .OffsetSp sp_offset_by_8 =>
      match checked_add regs.sp (sp_offset_by_8 * 8) with
      | none => (.err .IntegerOverflow, regs)
      | some new_sp => execTail regs new_sp regs.bp read_stack
  | .OffsetSpAndRestoreBp sp_offset_by_8 bp_storage_offset_from_sp_by_8 =>
      match checked_add regs.sp (sp_offset_by_8 * 8) with
      | none => (.err .IntegerOverflow, regs)
      | some new_sp =>
        match checked_add_signed regs.sp (bp_storage_offset_from_sp_by_8 * 8) with
        | none => (.err .IntegerOverflow, regs)
        | some bp_location =>
          match read_stack bp_location with
          | some new_bp => execTail regs new_sp new_bp read_stack
          | none =>
            if is_first_frame ∧ bp_location < regs.sp then
              execTail regs new_sp regs.bp read_stack
            else (.err (.CouldNotReadStack bp_location), regs)
  | .UseFramePointer =>
      if regs.bp = 0 then (.ok none, regs)
      else
        match checked_add regs.bp 16 with
        | none => (.err .IntegerOverflow, regs)
        | some new_sp =>
          if new_sp ≤ regs.sp then (.err .FramepointerUnwindingMovedBackwards, regs)
          else
            match read_stack regs.bp with
            | none => (.err (.CouldNotReadStack regs.bp), regs)
            | some new_bp => execTail regs new_sp new_bp read_stack

/-- Statement pattern for register preservation: on any outcome other than
Ok(Some ra) the register file is returned exactly as it was on entry; on
Ok(Some ra) the committed ip equals the returned address. -/
def RegsUnchangedUnless (regs : UnwindRegsX86_64) : ExecStatus × UnwindRegsX86_64 → Prop
  | (.ok (some ra), regs') => regs'.ip = ra
  | (_, regs') => regs' = regs

/-- RuntimeFunction (src/x86_64/seh.rs lines 15-24): three u32 fields laid out
consecutively in .pdata. -/
structure RuntimeFunction where
  begin_address : Nat
  end_address : Nat
  unwind_info_address : Nat
  deriving DecidableEq, Inhabited

/-- Little-endian u32 from four bytes. -/
def readU32le (b0 b1 b2 b3 : Nat) : Nat := b0 + 256 * b1 + 65536 * b2 + 16777216 * b3

/-- LayoutVerified::new_slice over exception_data (src/x86_64/seh.rs line 122):
reinterpret the byte stream as little-endian RuntimeFunction records, none
exactly when the length is not a multiple of 12. -/
def parseRuntimeFunctions : List Nat → Option (List RuntimeFunction)
  | [] => some []
  | b0 :: b1 :: b2 :: b3 :: b4 :: b5 :: b6 :: b7 :: b8 :: b9 :: b10 :: b11 :: rest =>
      (parseRuntimeFunctions rest).map
        (fun fs => ⟨readU32le b0 b1 b2 b3, readU32le b4 b5 b6 b7, readU32le b8 b9 b10 b11⟩ :: fs)
  | _ => none

/-- Bisection loop of Rust slice::partition_point / binary_search_by, as used
at src/x86_64/seh.rs line 127: narrow [left, right) until empty, descending to
the right of mid whenever pred holds at mid. -/
def partitionPointGo (pred : Nat → Bool) (left right : Nat) : Nat :=
  if h : left < right then
    if pred ((left + right) / 2) then partitionPointGo pred ((left + right) / 2 + 1) right
    else partitionPointGo pred left ((left + right) / 2)
  else left
termination_by right - left
decreasing_by
  · omega
  · omega

/-- partition_point over the parsed entries with the predicate of
src/x86_64/seh.rs line 127: entry.begin_address <= ip. -/
def partitionPoint (entries : List RuntimeFunction) (ip : Nat) : Nat :=
  partitionPointGo (fun i => decide ((entries.getD i default).begin_address ≤ ip)) 0 entries.length

/-- SehUnwinderError from src/seh.rs lines 22-34. -/
inductive SehUnwinderError
  | InvalidRuntimeFunction
  | UnwindInfoForAddressFailed
  | UnwindRvaMappingFailed
  | ConversionError
  | GoblinError
  deriving DecidableEq

/-- Outcome of the RUNTIME_FUNCTION lookup: a covering entry together with
func_offset, a SehUnwinderError, or a crash of the Rust process (the unchecked
index runtime_function[idx] at src/x86_64/seh.rs line 129). -/
inductive SehLookupResult
  | found (func : RuntimeFunction) (func_offset : Nat)
  | fail (e : SehUnwinderError)
  | crashed
  deriving DecidableEq

/-- RUNTIME_FUNCTION lookup prefix of ArchX86_64::unwind_frame
(src/x86_64/seh.rs lines 122-133): reinterpret the bytes, run partition_point
on begin_address <= ip, saturating_sub 1 (Nat subtraction), index into the
entry array (a crash when it is out of bounds, which happens exactly when the
array is empty), then check that the chosen entry covers ip. -/
def runtimeFunctionLookup (exception_data : List Nat) (ip : Nat) : SehLookupResult :=
  match parseRuntimeFunctions exception_data with
  | none => .fail .InvalidRuntimeFunction
  | some entries =>
    let idx := partitionPoint entries ip - 1
    match entries.get? idx with
    | none => .crashed
    | some func =>
      if func.begin_address > ip ∨ func.end_address ≤ ip then .fail .UnwindInfoForAddressFailed
      else .found func (ip - func.begin_address)

/-- Modelled from the spec: UnwindResult (spec section 6; src/unwind_result.rs
is not among the provided sources) is a tagged variant ExecRule(rule) or
Uncacheable(new_regs); only ExecRule is produced by this core. -/
inductive UnwindResult (R : Type)
  | ExecRule (rule : R)
  | Uncacheable (new_regs : UnwindRegsX86_64)
  deriving DecidableEq

/-- rule_if_uncovered_by_seh of the x86_64 SehUnwinding impl
(src/x86_64/seh.rs lines 162-164). -/
def rule_if_uncovered_by_seh : UnwindRuleX86_64Seh := .JustReturn

/-- SehUnwinder::unwind_frame (src/seh.rs lines 45-65), abstracted over the
result of the architecture-level A::unwind_frame call it delegates to: an
UnwindInfoForAddressFailed error becomes Ok(ExecRule(rule_if_uncovered)),
every other result is returned unchanged. -/
def SehUnwinder.unwind_frame {R : Type} (arch_result : Except SehUnwinderError (UnwindResult R))
    (rule_if_uncovered : R) : Except SehUnwinderError (UnwindResult R) :=
  match arch_result with
  | .error .UnwindInfoForAddressFailed => .ok (.ExecRule rule_if_uncovered)
  | r => r

/-- Operations claimed to have no effect on the synthesizer accumulator:
Noop, Epilog, SaveXMM, SaveXMM128. -/
def isNeutralOp : UnwindOperation → Bool
  | .Noop => true
  | .Epilog => true
  | .SaveXMM _ _ => true
  | .SaveXMM128 _ _ => true
  | _ => false

/-- Relation holding when the second operation list arises from the first by
inserting accumulator-neutral operations at arbitrary positions. -/
inductive NeutralInsertion : List UnwindOperation → List UnwindOperation → Prop
  | nil : NeutralInsertion [] []
  | keep (op : UnwindOperation) {l l' : List UnwindOperation} :
      NeutralInsertion l l' → NeutralInsertion (op :: l) (op :: l')
  | ins (op : UnwindOperation) {l l' : List UnwindOperation} :
      isNeutralOp op = true → NeutralInsertion l l' → NeutralInsertion l (op :: l')

/-- Chunks related by neutral insertion: identical frame-register data,
operation lists related by NeutralInsertion. -/
def ChunkNeutralInsertion (c c' : UnwindInfoChunk) : Prop :=
  c.frame_register = c'.frame_register ∧
  c.frame_register_offset = c'.frame_register_offset ∧
  NeutralInsertion c.codes c'.codes

/-- Operations claimed neutral really do leave the accumulator unchanged. -/
theorem synthStep_neutral (fro : Nat) (s : SynthState) (op : UnwindOperation)
    (h : isNeutralOp op = true) : synthStep fro s op = s := by
  cases op <;> simp_all [isNeutralOp, synthStep]

/-- Folding the operation loop is invariant under neutral insertion. -/
theorem foldl_synthStep_neutral (fro : Nat) {l l' : List UnwindOperation}
    (h : NeutralInsertion l l') (s : SynthState) :
    l'.foldl (synthStep fro) s = l.foldl (synthStep fro) s := by
  induction h generalizing s with
  | nil => rfl
  | keep op h ih => simpa using ih (synthStep fro s op)
  | ins op hn h ih => simpa [synthStep_neutral fro s op hn] using ih s

/-- Folding the chunk loop is invariant under chunkwise neutral insertion. -/
theorem foldl_synthChunk_rel {cs cs' : List UnwindInfoChunk}
    (h : List.Forall₂ ChunkNeutralInsertion cs cs') (s : SynthState) :
    cs'.foldl synthChunk s = cs.foldl synthChunk s := by
  induction h generalizing s with
  | nil => rfl
  | cons hc hrest ih =>
      rename_i c c' l l'
      have hchunk : synthChunk s c' = synthChunk s c := by
        unfold synthChunk
        rw [← hc.2.1, foldl_synthStep_neutral _ hc.2.2]
      simp only [List.foldl_cons, hchunk]
      exact ih _

/-- Common tail of exec never mutates the registers except when committing an
Ok(Some ra) result. -/
theorem execTail_unchanged (regs : UnwindRegsX86_64) (new_sp new_bp : Nat)
    (read_stack : Nat → Option Nat) :
    RegsUnchangedUnless regs (execTail regs new_sp new_bp read_stack) := by
  unfold execTail
  split
  · rfl
  · split
    · rfl
    · split
      · rfl
      · split
        · rfl
        · rfl

/-- When the common tail of exec is entered with new_bp equal to the incoming
bp, the bp register it hands back is unchanged in every outcome. -/
theorem execTail_bp_preserved (regs : UnwindRegsX86_64) (new_sp : Nat)
    (read_stack : Nat → Option Nat) :
    (execTail regs new_sp regs.bp read_stack).2.bp = regs.bp := by
  unfold execTail
  split
  · rfl
  · split
    · rfl
    · split
      · rfl
      · split
        · rfl
        · rfl

/-- Every value of the executor's five-case algebra embeds to a
synthesizer-side value satisfying isExecCase. -/
theorem toSeh_isExecCase (r : UnwindRuleX86_64) : r.toSeh.isExecCase = true := by
  cases r <;> rfl

/-- Claim C1: for the single-chunk input SaveNonVolatile(7, RSP(0x80)),
SaveNonVolatile(6, RSP(0x78)), SaveNonVolatile(3, RSP(0x70)), SetFPRegister,
Alloc(64), PushNonVolatile(15), PushNonVolatile(14), PushNonVolatile(13),
PushNonVolatile(12), PushNonVolatile(5) with frame_register = 5 and
frame_register_offset = 0x30, seh_to_unwind_rule returns
UseBasePointer { sp_offset_from_bp_by_8 = 8, bp_storage_offset_from_bp_by_8 = 6 }. -/
theorem seh_to_unwind_rule_midstack_bp :
    seh_to_unwind_rule [⟨[.SaveNonVolatile 7 (.RSP 0x80), .SaveNonVolatile 6 (.RSP 0x78),
      .SaveNonVolatile 3 (.RSP 0x70), .SetFPRegister, .Alloc 64, .PushNonVolatile 15,
      .PushNonVolatile 14, .PushNonVolatile 13, .PushNonVolatile 12, .PushNonVolatile 5], 5, 0x30⟩]
    = some (.UseBasePointer 8 6) := by decide

/-- Claim C2 (code bug): exec is claimed never to panic, with every arithmetic
operation checked, but the return-address read uses the unchecked subtraction
new_sp - 8 (src/x86_64/unwind_rule.rs line 161); for OffsetSp with
sp_offset_by_8 = 0 and sp = 0 the subtraction underflows and the Rust code
crashes (debug-build overflow panic) instead of returning a Result. -/
theorem exec_offsetSp_zero_sp_zero_crash :
    exec (.OffsetSp 0) true ⟨0, 0, 0⟩ (fun _ => some 1) = (.crashed, ⟨0, 0, 0⟩) := by decide

/-- Claim C3 (counterexample): executing JustReturnIfFirstFrameOtherwiseFp with
is_first_frame = false is NOT identical to UseFramePointer on all inputs: at
bp = 0, sp = 16 the former reports FramepointerUnwindingMovedBackwards while
UseFramePointer takes its bp == 0 early return and yields Ok(None). -/
theorem exec_jriffofp_differs_from_ufp_at_bp_zero :
    exec .JustReturnIfFirstFrameOtherwiseFp false ⟨0, 16, 0⟩ (fun _ => none)
      ≠ exec .UseFramePointer false ⟨0, 16, 0⟩ (fun _ => none) := by decide

/-- Claim C3 (amended): JustReturnIfFirstFrameOtherwiseFp is identical to
JustReturn whenever is_first_frame is true, and identical to UseFramePointer
(including the backwards-check) whenever is_first_frame is false and bp is
nonzero; the bp == 0 early return exists only in UseFramePointer. -/
theorem exec_jriffofp_amended_equiv (regs : UnwindRegsX86_64) (read_stack : Nat → Option Nat) :
    exec .JustReturnIfFirstFrameOtherwiseFp true regs read_stack
      = exec .JustReturn true regs read_stack ∧
    (regs.bp ≠ 0 →
      exec .JustReturnIfFirstFrameOtherwiseFp false regs read_stack
        = exec .UseFramePointer false regs read_stack) := by
  constructor
  · rfl
  · intro h
    simp [exec, h]

/-- Witness for the amended C3 statement at a concrete nonzero bp. -/
theorem exec_jriffofp_amended_equiv_witness :
    (⟨1, 16, 32⟩ : UnwindRegsX86_64).bp ≠ 0 ∧
    exec .JustReturnIfFirstFrameOtherwiseFp false ⟨1, 16, 32⟩ (fun _ => some 7)
      = exec .UseFramePointer false ⟨1, 16, 32⟩ (fun _ => some 7) :=
  ⟨by decide, (exec_jriffofp_amended_equiv ⟨1, 16, 32⟩ (fun _ => some 7)).2 (by decide)⟩

/-- Claim C4 (code bug): the RUNTIME_FUNCTION lookup is claimed to select a
covering entry or return UnwindInfoForAddressFailed, in particular on an empty
exception_data; but on the empty table partition_point yields 0,
saturating_sub keeps idx = 0, and runtime_function[0] indexes an empty slice:
the Rust code crashes instead of returning the error. -/
theorem runtimeFunctionLookup_empty_crash : runtimeFunctionLookup [] 0 = .crashed := by decide

/-- Claim C5 (counterexample): seh_to_unwind_rule can return UseBasePointer,
which is not a case of the closed five-case algebra that exec gives execution
semantics to. -/
theorem seh_to_unwind_rule_emits_non_exec_case :
    seh_to_unwind_rule [⟨[.SetFPRegister, .PushNonVolatile 5], 5, 0⟩]
      = some (.UseBasePointer 2 0) ∧
    UnwindRuleX86_64Seh.isExecCase (.UseBasePointer 2 0) = false := by decide

/-- Claim C5 (amended): every rule value seh_to_unwind_rule returns is one of
OffsetSp, OffsetSpAndRestoreBp, or UseBasePointer; the last is a sixth case
beyond the five-case algebra of unwind_rule.rs. -/
theorem seh_to_unwind_rule_output_cases :
    ∀ (chunks : List UnwindInfoChunk) (r : UnwindRuleX86_64Seh),
      seh_to_unwind_rule chunks = some r →
      (∃ k, r = .OffsetSp k) ∨ (∃ k j, r = .OffsetSpAndRestoreBp k j) ∨
      (∃ k j, r = .UseBasePointer k j) := by
  intro chunks r h
  simp only [seh_to_unwind_rule] at h
  split at h
  · split at h
    · exact Or.inr (Or.inr ⟨_, _, (Option.some.inj h).symm⟩)
    · cases h
  · split at h
    · exact Or.inr (Or.inl ⟨_, _, (Option.some.inj h).symm⟩)
    · exact Or.inl ⟨_, (Option.some.inj h).symm⟩

/-- Witness for the amended C5 statement on the empty chunk stream. -/
theorem seh_to_unwind_rule_output_cases_witness :
    (∃ k, (UnwindRuleX86_64Seh.OffsetSp 1) = .OffsetSp k) ∨
    (∃ k j, (UnwindRuleX86_64Seh.OffsetSp 1) = .OffsetSpAndRestoreBp k j) ∨
    (∃ k j, (UnwindRuleX86_64Seh.OffsetSp 1) = .UseBasePointer k j) :=
  seh_to_unwind_rule_output_cases [] (.OffsetSp 1) (by decide)

/-- Claim C6: the SehUnwinder wrapper converts an UnwindInfoForAddressFailed
result of the architecture-level unwind into
Ok(ExecRule(rule_if_uncovered_by_seh())) — for x86_64, ExecRule(JustReturn) —
and returns every other result unchanged. -/
theorem sehUnwinder_unwind_frame_fallback :
    SehUnwinder.unwind_frame (R := UnwindRuleX86_64Seh) (.error .UnwindInfoForAddressFailed)
        rule_if_uncovered_by_seh = .ok (.ExecRule .JustReturn) ∧
    ∀ (res : Except SehUnwinderError (UnwindResult UnwindRuleX86_64Seh)),
      res ≠ .error .UnwindInfoForAddressFailed →
      SehUnwinder.unwind_frame res rule_if_uncovered_by_seh = res := by
  refine ⟨rfl, ?_⟩
  intro res h
  cases res with
  | ok r => rfl
  | error e => cases e <;> first | rfl | exact absurd rfl h

/-- Witness for C6 at a concrete non-converted error. -/
theorem sehUnwinder_unwind_frame_fallback_witness :
    SehUnwinder.unwind_frame (R := UnwindRuleX86_64Seh) (.error .ConversionError)
        rule_if_uncovered_by_seh = .error .ConversionError :=
  sehUnwinder_unwind_frame_fallback.2 _
    (by intro h; injection h with h'; exact SehUnwinderError.noConfusion h')

/-- Claim C7: when the OffsetSpAndRestoreBp read of the bp slot fails on the
first frame with bp_location below sp, exec proceeds with regs.bp unchanged
through the common tail (which reads the return address at new_sp - 8) and its
final bp is unchanged in every outcome; in every other failing read, exec
returns CouldNotReadStack(bp_location). -/
theorem exec_osarbp_bp_read_failure
    (k : Nat) (j : Int) (first : Bool) (regs : UnwindRegsX86_64)
    (read_stack : Nat → Option Nat) (new_sp bp_location : Nat)
    (hsp : checked_add regs.sp (k * 8) = some new_sp)
    (hbp : checked_add_signed regs.sp (j * 8) = some bp_location)
    (hread : read_stack bp_location = none) :
    (first = true ∧ bp_location < regs.sp →
      exec (.OffsetSpAndRestoreBp k j) first regs read_stack
          = execTail regs new_sp regs.bp read_stack ∧
      (exec (.OffsetSpAndRestoreBp k j) first regs read_stack).2.bp = regs.bp) ∧
    (¬(first = true ∧ bp_location < regs.sp) →
      exec (.OffsetSpAndRestoreBp k j) first regs read_stack
          = (.err (.CouldNotReadStack bp_location), regs)) := by
  constructor
  · intro hc
    have he : exec (.OffsetSpAndRestoreBp k j) first regs read_stack
        = execTail regs new_sp regs.bp read_stack := by
      simp only [exec, hsp, hbp, hread]
      rw [if_pos hc]
    exact ⟨he, by rw [he]; exact execTail_bp_preserved regs new_sp read_stack⟩
  · intro hc
    simp only [exec, hsp, hbp, hread]
    rw [if_neg hc]

/-- Witness for C7: first frame, bp_location = sp - 16 < sp, failing read. -/
theorem exec_osarbp_bp_read_failure_witness :
    exec (.OffsetSpAndRestoreBp 1 (-2)) true ⟨0, 16, 153⟩
        (fun a => if a = 0 then none else some 5)
      = execTail ⟨0, 16, 153⟩ 24 153 (fun a => if a = 0 then none else some 5) ∧
    (exec (.OffsetSpAndRestoreBp 1 (-2)) true ⟨0, 16, 153⟩
        (fun a => if a = 0 then none else some 5)).2.bp = 153 :=
  (exec_osarbp_bp_read_failure 1 (-2) true ⟨0, 16, 153⟩
      (fun a => if a = 0 then none else some 5) 24 0
      (by decide) (by decide) (by decide)).1 ⟨rfl, by decide⟩

/-- Claim C8 (code bug): when sp_offset / 8 does not fit in the u16 field the
synthesizer is claimed to report ConversionError, but the source narrows with
`as u16` (the overflow TODOs at src/x86_64/seh.rs lines 93-103): for a single
Alloc(0x80000) chunk, sp_offset / 8 = 65537 and the returned rule is the
silently truncated OffsetSp { sp_offset_by_8 = 1 }. -/
theorem seh_to_unwind_rule_truncates_large_offset :
    seh_to_unwind_rule [⟨[.Alloc 0x80000], 0, 0⟩] = some (.OffsetSp 1) := by decide

/-- Claim C9: inserting any number of Noop, Epilog, SaveXMM, or SaveXMM128
operations at any positions inside any chunks leaves the synthesized rule
unchanged. -/
theorem seh_to_unwind_rule_neutral_insertion (cs cs' : List UnwindInfoChunk)
    (h : List.Forall₂ ChunkNeutralInsertion cs cs') :
    seh_to_unwind_rule cs' = seh_to_unwind_rule cs := by
  unfold seh_to_unwind_rule
  rw [foldl_synthChunk_rel h]

/-- Witness for C9: inserting a Noop and an Epilog around a push. -/
theorem seh_to_unwind_rule_neutral_insertion_witness :
    seh_to_unwind_rule [⟨[.Noop, .PushNonVolatile 5, .Epilog], 0, 0⟩]
      = seh_to_unwind_rule [⟨[.PushNonVolatile 5], 0, 0⟩] :=
  seh_to_unwind_rule_neutral_insertion _ _
    (List.Forall₂.cons
      ⟨rfl, rfl, .ins .Noop rfl (.keep _ (.ins .Epilog rfl .nil))⟩
      List.Forall₂.nil)

/-- Claim C10: whenever exec returns an error, Ok(None), or crashes, the
register file is exactly as it was on entry; the registers change only on the
Ok(Some return_address) path, where the committed ip is the returned address. -/
theorem exec_regs_unchanged_on_failure :
    ∀ (rule : UnwindRuleX86_64) (first : Bool) (regs : UnwindRegsX86_64)
      (read_stack : Nat → Option Nat),
      RegsUnchangedUnless regs (exec rule first regs read_stack) := by
  intro rule first regs read_stack
  cases rule <;> simp only [exec] <;>
    (repeat' split) <;> first | rfl | apply execTail_unchanged
